import Mathlib

/-!
Verification of the gesture-particle pipeline: a shallow embedding of
src/services/gestureService.ts (feature extraction from 21 hand landmarks)
and src/components/HandParticleScene.tsx (shape generation, the
metrics-update reducer and the per-tick particle animator).

Landmark coordinates are modelled as rationals; Euclidean distances are
real numbers (Math.sqrt).  The source only ever compares distances, and
Real.sqrt is strictly monotone on nonnegative arguments, so each boolean
comparison of distances is computed on the squared distances and certified
equivalent to the sqrt-based comparison (lemma distance_lt_distance_iff).
Randomness (Math.random) is modelled by explicit streams of rational draws
in [0,1), one draw per call, indexed in call order.
-/

namespace GestureParticles

/-- One 3D landmark or palm position, coordinates in normalized image space. -/
structure Point where
  x : ℚ
  y : ℚ
  z : ℚ
deriving DecidableEq

/-- A detection event delivers exactly 21 landmark points. -/
abbrev Landmarks := Fin 21 → Point

/-- Squared Euclidean distance between two points; the radicand of the
source's distance function. -/
def dist2 (p1 p2 : Point) : ℚ :=
  (p1.x - p2.x) ^ 2 + (p1.y - p2.y) ^ 2 + (p1.z - p2.z) ^ 2

/-- Euclidean distance between two 3D points, as in gestureService.ts:
Math.sqrt((p1.x-p2.x)^2 + (p1.y-p2.y)^2 + (p1.z-p2.z)^2). -/
noncomputable def distance (p1 p2 : Point) : ℝ :=
  Real.sqrt ((dist2 p1 p2 : ℚ) : ℝ)

/-- MediaPipe landmark index of the wrist. -/
def WRIST : Fin 21 := ⟨0, by decide⟩

/-- MediaPipe landmark index of the thumb interphalangeal joint. -/
def THUMB_IP : Fin 21 := ⟨3, by decide⟩

/-- MediaPipe landmark index of the thumb tip. -/
def THUMB_TIP : Fin 21 := ⟨4, by decide⟩

/-- MediaPipe landmark index of the index-finger PIP joint. -/
def INDEX_FINGER_PIP : Fin 21 := ⟨6, by decide⟩

/-- MediaPipe landmark index of the index-finger tip. -/
def INDEX_FINGER_TIP : Fin 21 := ⟨8, by decide⟩

/-- MediaPipe landmark index of the middle-finger MCP joint. -/
def MIDDLE_FINGER_MCP : Fin 21 := ⟨9, by decide⟩

/-- MediaPipe landmark index of the middle-finger PIP joint. -/
def MIDDLE_FINGER_PIP : Fin 21 := ⟨10, by decide⟩

/-- MediaPipe landmark index of the middle-finger tip. -/
def MIDDLE_FINGER_TIP : Fin 21 := ⟨12, by decide⟩

/-- MediaPipe landmark index of the ring-finger PIP joint. -/
def RING_FINGER_PIP : Fin 21 := ⟨14, by decide⟩

/-- MediaPipe landmark index of the ring-finger tip. -/
def RING_FINGER_TIP : Fin 21 := ⟨16, by decide⟩

/-- MediaPipe landmark index of the pinky MCP joint (thumb reference point). -/
def PINKY_MCP : Fin 21 := ⟨17, by decide⟩

/-- MediaPipe landmark index of the pinky PIP joint. -/
def PINKY_PIP : Fin 21 := ⟨18, by decide⟩

/-- MediaPipe landmark index of the pinky tip. -/
def PINKY_TIP : Fin 21 := ⟨20, by decide⟩

/-- Thumb extension test of gestureService.ts: distance(thumb tip, pinky MCP)
exceeds distance(thumb IP, pinky MCP).  Computed on squared distances, which
is equivalent because sqrt is strictly monotone on nonnegatives. -/
def isThumbExtended (lm : Landmarks) : Bool :=
  decide (dist2 (lm THUMB_IP) (lm PINKY_MCP) < dist2 (lm THUMB_TIP) (lm PINKY_MCP))

/-- Index-finger extension test: distance(tip, wrist) > distance(PIP, wrist). -/
def isIndexExtended (lm : Landmarks) : Bool :=
  decide (dist2 (lm INDEX_FINGER_PIP) (lm WRIST) < dist2 (lm INDEX_FINGER_TIP) (lm WRIST))

/-- Middle-finger extension test: distance(tip, wrist) > distance(PIP, wrist). -/
def isMiddleExtended (lm : Landmarks) : Bool :=
  decide (dist2 (lm MIDDLE_FINGER_PIP) (lm WRIST) < dist2 (lm MIDDLE_FINGER_TIP) (lm WRIST))

/-- Ring-finger extension test: distance(tip, wrist) > distance(PIP, wrist). -/
def isRingExtended (lm : Landmarks) : Bool :=
  decide (dist2 (lm RING_FINGER_PIP) (lm WRIST) < dist2 (lm RING_FINGER_TIP) (lm WRIST))

/-- Pinky extension test: distance(tip, wrist) > distance(PIP, wrist). -/
def isPinkyExtended (lm : Landmarks) : Bool :=
  decide (dist2 (lm PINKY_PIP) (lm WRIST) < dist2 (lm PINKY_TIP) (lm WRIST))

/-- The metrics record returned by analyzeHand (types.ts HandMetrics). -/
structure HandMetrics where
  fingerCount : ℕ
  isFist : Bool
  position : Point
  palmDepth : ℝ

/-- Feature extraction of gestureService.ts: count extended digits, detect a
fist (0 extended digits, or 1 extended digit with all four non-thumb fingers
curled), take landmark 9 as the palm position and the wrist-to-middle-MCP
distance as the palm-depth proxy. -/
noncomputable def analyzeHand (lm : Landmarks) : HandMetrics :=
  let fingerCount : ℕ :=
    (if isThumbExtended lm then 1 else 0) +
    (if isIndexExtended lm then 1 else 0) +
    (if isMiddleExtended lm then 1 else 0) +
    (if isRingExtended lm then 1 else 0) +
    (if isPinkyExtended lm then 1 else 0)
  let isFist : Bool :=
    (fingerCount == 0) ||
    ((fingerCount == 1) && !(isIndexExtended lm) && !(isMiddleExtended lm) &&
      !(isRingExtended lm) && !(isPinkyExtended lm))
  { fingerCount := fingerCount
    isFist := isFist
    position := lm MIDDLE_FINGER_MCP
    palmDepth := distance (lm WRIST) (lm MIDDLE_FINGER_MCP) }

/-- The five target shapes (types.ts ShapeType). -/
inductive ShapeType where
  | HEART
  | FLOWER
  | PORTAL
  | HEXAGRAM
  | TREE
deriving DecidableEq

/-- Number of particles (HandParticleScene.tsx PARTICLE_COUNT). -/
def PARTICLE_COUNT : ℕ := 4000

/-- Position smoothing factor (HandParticleScene.tsx POS_LERP_FACTOR). -/
noncomputable def POS_LERP_FACTOR : ℝ := 0.08

/-- Color smoothing factor (HandParticleScene.tsx COLOR_LERP_FACTOR). -/
noncomputable def COLOR_LERP_FACTOR : ℝ := 0.05

/-- A real 3D vector, one generated particle position. -/
structure Vec3 where
  x : ℝ
  y : ℝ
  z : ℝ

/-- The generate helper of the shapes memo: fill a flat buffer with the three
coordinates of fn i for every particle index i below n, in index order. -/
noncomputable def generate (n : ℕ) (fn : ℕ → Vec3) : List ℝ :=
  (List.range n).flatMap (fun i => [(fn i).x, (fn i).y, (fn i).z])

/-- HEART particle: t = (i/N)·2π, radius jitter r = 0.5 + random·0.1, curve
x = 16·sin³ t and y = 13·cos t − 5·cos 2t − 2·cos 3t − cos 4t both scaled by
r, z = (random − 0.5)·4.  Draws 2 random values per particle, indices 2i and
2i+1 of the stream. -/
noncomputable def heartPoint (rng : ℕ → ℚ) (n i : ℕ) : Vec3 :=
  let t : ℝ := ((i : ℝ) / (n : ℝ)) * Real.pi * 2
  let r : ℝ := 0.5 + (rng (2 * i) : ℝ) * 0.1
  let x : ℝ := 16 * (Real.sin t) ^ 3
  let y : ℝ := 13 * Real.cos t - 5 * Real.cos (2 * t) - 2 * Real.cos (3 * t) - Real.cos (4 * t)
  let z : ℝ := ((rng (2 * i + 1) : ℝ) - 0.5) * 4
  ⟨x * r, y * r, z⟩

/-- FLOWER particle: k = 5 petals, t = (i/N)·2π·12, rad = 8·cos(k·t) + 3,
position (rad·cos t, rad·sin t, (random − 0.5)·3).  One draw per particle. -/
noncomputable def flowerPoint (rng : ℕ → ℚ) (n i : ℕ) : Vec3 :=
  let k : ℝ := 5
  let t : ℝ := ((i : ℝ) / (n : ℝ)) * Real.pi * 2 * 12
  let rad : ℝ := 8 * Real.cos (k * t) + 3
  ⟨rad * Real.cos t, rad * Real.sin t, ((rng i : ℝ) - 0.5) * 3⟩

/-- PORTAL particle: layer = i mod 3, random angle, radius 10 + random·1.5
(outer), 8 + random·1.0 (middle) or random·9 (inner sparks), radial noise
(random − 0.5)·0.5, z = (random − 0.5)·0.5.  Four draws per particle in call
order: angle, radius, noise, z, at stream indices 4i .. 4i+3. -/
noncomputable def portalPoint (rng : ℕ → ℚ) (n i : ℕ) : Vec3 :=
  let layer := i % 3
  let angle : ℝ := (rng (4 * i) : ℝ) * Real.pi * 2
  let rad : ℝ :=
    if layer = 0 then 10 + (rng (4 * i + 1) : ℝ) * 1.5
    else if layer = 1 then 8 + (rng (4 * i + 1) : ℝ) * 1.0
    else (rng (4 * i + 1) : ℝ) * 9
  let noise : ℝ := ((rng (4 * i + 2) : ℝ) - 0.5) * 0.5
  ⟨(rad + noise) * Real.cos angle, (rad + noise) * Real.sin angle,
    ((rng (4 * i + 3) : ℝ) - 0.5) * 0.5⟩

/-- HEXAGRAM particle: angle = (i/N)·2π, rad = 9·(1.2 + 0.3·sin(6·angle)),
position (rad·cos angle, rad·sin angle, (random − 0.5)·2). -/
noncomputable def hexagramPoint (rng : ℕ → ℚ) (n i : ℕ) : Vec3 :=
  let angle : ℝ := ((i : ℝ) / (n : ℝ)) * Real.pi * 2
  let rad : ℝ := 9 * (1.2 + 0.3 * Real.sin (6 * angle))
  ⟨rad * Real.cos angle, rad * Real.sin angle, ((rng i : ℝ) - 0.5) * 2⟩

/-- TREE particle: pct = i/N, height 18, y = 8 − pct·18, radius = pct·8,
spiral angle = pct·π·20.  Deterministic, no random draws. -/
noncomputable def treePoint (n i : ℕ) : Vec3 :=
  let pct : ℝ := (i : ℝ) / (n : ℝ)
  let height : ℝ := 18
  let y : ℝ := 8 - pct * height
  let radius : ℝ := pct * 8
  let angle : ℝ := pct * Real.pi * 20
  ⟨radius * Real.cos angle, y, radius * Real.sin angle⟩

/-- Generate the cached point buffer of one shape with n particles, each
shape consuming its own stream of random draws in [0,1). -/
noncomputable def shapeSet (n : ℕ) (rng : ShapeType → ℕ → ℚ) : ShapeType → List ℝ
  | .HEART => generate n (heartPoint (rng .HEART) n)
  | .FLOWER => generate n (flowerPoint (rng .FLOWER) n)
  | .PORTAL => generate n (portalPoint (rng .PORTAL) n)
  | .HEXAGRAM => generate n (hexagramPoint (rng .HEXAGRAM) n)
  | .TREE => generate n (treePoint n)

/-- The five cached shape buffers of the shapes memo, at the configured
particle count. -/
noncomputable def shapePoints (rng : ShapeType → ℕ → ℚ) : ShapeType → List ℝ :=
  shapeSet PARTICLE_COUNT rng

/-- THREE.Color, modelled by its hue / saturation / lightness components
(the spec data model allows either HSL or RGB for color state); lerp closes
the given fraction of the gap on every component, as THREE.Color.lerp does. -/
structure Color where
  h : ℝ
  s : ℝ
  l : ℝ

/-- Componentwise linear interpolation of a color toward a target by
factor a (THREE.Color.lerp). -/
noncomputable def Color.lerp (c t : Color) (a : ℝ) : Color :=
  ⟨c.h + (t.h - c.h) * a, c.s + (t.s - c.s) * a, c.l + (t.l - c.l) * a⟩

/-- Build a color from hue, saturation and lightness (THREE.Color.setHSL). -/
def Color.setHSL (h s l : ℝ) : Color := ⟨h, s, l⟩

/-- The mutable scene state of HandParticleScene: the geometry position
buffer, the target positions buffer, the current shape, the physics targets
(rotationSpeedRef, groupScaleRef), the rendered uniform scale and rotation
angles, and the current and target colors. -/
structure SceneState where
  positions : List ℝ
  targetPositions : List ℝ
  currentShape : ShapeType
  rotationSpeed : ℝ
  groupScale : ℝ
  scale : ℝ
  rotZ : ℝ
  rotY : ℝ
  currentColor : Color
  targetColor : Color

/-- State at startup: both buffers hold the HEART point set, rotation speed
0.001, group scale 1.0, rendered scale 1, rotation angles 0, both colors
0xff0055 (hue 17/18, saturation 1, lightness 1/2 in HSL). -/
noncomputable def initialState (rng : ShapeType → ℕ → ℚ) : SceneState :=
  { positions := shapePoints rng .HEART
    targetPositions := shapePoints rng .HEART
    currentShape := .HEART
    rotationSpeed := 0.001
    groupScale := 1.0
    scale := 1
    rotZ := 0
    rotY := 0
    currentColor := ⟨17 / 18, 1, 1 / 2⟩
    targetColor := ⟨17 / 18, 1, 1 / 2⟩ }

/-- Shape selection of the metrics-update effect: finger counts 1..5 pick
HEART, FLOWER, PORTAL, HEXAGRAM, TREE; any other count keeps the current
shape. -/
def selectShape (fingerCount : ℕ) (cur : ShapeType) : ShapeType :=
  if fingerCount = 1 then .HEART
  else if fingerCount = 2 then .FLOWER
  else if fingerCount = 3 then .PORTAL
  else if fingerCount = 4 then .HEXAGRAM
  else if fingerCount = 5 then .TREE
  else cur

/-- Hue computed while fisted: clamp(1 − position.x, 0, 1), written in the
source as Math.max(0, Math.min(1, 1 - position.x)). -/
noncomputable def fistHue (m : HandMetrics) : ℝ :=
  max 0 (min 1 (1 - (m.position.x : ℝ)))

/-- The metrics-update effect of HandParticleScene, applied once per received
HandMetrics: (1) when not a fist, resolve the shape from the finger count and
on a change replace the target positions buffer with the cached point set and
record the new shape; (2) when a fist, set the target color from the fist
hue at full saturation and mid lightness; (3) set the physics targets: fist
gives group scale 0.4 and rotation speed 0.15, open hand gives group scale
1.0 + (1 − clamp(palmDepth, 0.05, 0.5)·2) and rotation speed 0.002.
shapeSets is the cached shapes memo. -/
noncomputable def updateScene (shapeSets : ShapeType → List ℝ) (m : HandMetrics)
    (s : SceneState) : SceneState :=
  let s1 :=
    if m.isFist then s
    else
      let newShape := selectShape m.fingerCount s.currentShape
      if newShape = s.currentShape then s
      else { s with currentShape := newShape, targetPositions := shapeSets newShape }
  let s2 :=
    if m.isFist then { s1 with targetColor := Color.setHSL (fistHue m) 1.0 0.5 }
    else s1
  if m.isFist then { s2 with groupScale := 0.4, rotationSpeed := 0.15 }
  else
    let depthScale := max 0.05 (min 0.5 m.palmDepth)
    { s2 with groupScale := 1.0 + (1 - depthScale * 2), rotationSpeed := 0.002 }

/-- One coordinate update of the animate loop: move toward the target by
factor a, then add the jitter (random − 0.5)·0.05 from draw d. -/
noncomputable def lerpStep (a t x : ℝ) (d : ℚ) : ℝ :=
  x + (t - x) * a + ((d : ℝ) - 0.5) * 0.05

/-- The particle-movement loop of one animate tick over n particles (3n
coordinates): every coordinate is smoothed toward its target by
POS_LERP_FACTOR and then jittered, consuming one random draw per
coordinate in index order. -/
noncomputable def tickPositions (n : ℕ) (pos target : List ℝ) (jit : ℕ → ℚ) : List ℝ :=
  (List.range (3 * n)).map (fun j => lerpStep POS_LERP_FACTOR (target.getD j 0) (pos.getD j 0) (jit j))

/-- One animate tick: lerp the current color toward the target color by
COLOR_LERP_FACTOR, run the particle-movement loop, advance the two rotation
angles by rotationSpeed and rotationSpeed·0.5, and lerp the rendered scale
toward the group-scale target by 0.1. -/
noncomputable def tick (s : SceneState) (jit : ℕ → ℚ) : SceneState :=
  { s with
    currentColor := Color.lerp s.currentColor s.targetColor COLOR_LERP_FACTOR
    positions := tickPositions PARTICLE_COUNT s.positions s.targetPositions jit
    rotZ := s.rotZ + s.rotationSpeed
    rotY := s.rotY + s.rotationSpeed * 0.5
    scale := s.scale + (s.groupScale - s.scale) * 0.1 }

/-- Iterate the per-coordinate position update of the animate loop with a
constant target t, a generic smoothing factor a and a stream of jitter
draws, starting from x0; step n consumes draw n. -/
noncomputable def iterPos (a t : ℝ) (d : ℕ → ℚ) (x0 : ℝ) : ℕ → ℝ
  | 0 => x0
  | n + 1 => lerpStep a t (iterPos a t d x0 n) (d n)

/-- A concrete landmark set whose thumb is the only extended digit: every
finger tip is nearer the wrist than its PIP joint, while the thumb tip is
farther from the pinky MCP than the thumb IP joint is. -/
def lmFistThumb : Landmarks := fun j =>
  if j.val = 4 then ⟨1 / 5, 0, 0⟩
  else if j.val = 3 then ⟨2 / 5, 0, 0⟩
  else if j.val = 17 then ⟨1 / 2, 0, 0⟩
  else if j.val = 6 ∨ j.val = 10 ∨ j.val = 14 ∨ j.val = 18 then ⟨0, 3 / 10, 0⟩
  else if j.val = 8 ∨ j.val = 12 ∨ j.val = 16 ∨ j.val = 20 then ⟨0, 1 / 10, 0⟩
  else ⟨0, 0, 0⟩

/-- A concrete open-hand metrics record: five fingers, not a fist, palm
depth exactly 0.5. -/
noncomputable def mOpenHalf : HandMetrics :=
  { fingerCount := 5, isFist := false, position := ⟨0, 0, 0⟩, palmDepth := 0.5 }

end GestureParticles

namespace GestureParticles

theorem dist2_nonneg (p1 p2 : Point) : 0 ≤ dist2 p1 p2 := by
  unfold dist2
  positivity

theorem distance_lt_distance_iff (p1 p2 q1 q2 : Point) :
    distance p1 p2 < distance q1 q2 ↔ dist2 p1 p2 < dist2 q1 q2 := by
  unfold distance
  rw [Real.sqrt_lt_sqrt_iff (by exact_mod_cast dist2_nonneg p1 p2)]
  exact_mod_cast Iff.rfl

theorem updateScene_currentShape (sets : ShapeType → List ℝ) (m : HandMetrics) (s : SceneState) :
    (updateScene sets m s).currentShape =
      if m.isFist then s.currentShape else selectShape m.fingerCount s.currentShape := by
  cases hf : m.isFist <;>
    simp only [updateScene, hf, Bool.false_eq_true, if_false, if_true] <;>
    by_cases hn : selectShape m.fingerCount s.currentShape = s.currentShape <;>
    simp [hn]

theorem updateScene_targetPositions (sets : ShapeType → List ℝ) (m : HandMetrics) (s : SceneState) :
    (updateScene sets m s).targetPositions =
      if m.isFist then s.targetPositions
      else if selectShape m.fingerCount s.currentShape = s.currentShape then s.targetPositions
      else sets (selectShape m.fingerCount s.currentShape) := by
  cases hf : m.isFist <;>
    simp only [updateScene, hf, Bool.false_eq_true, if_false, if_true] <;>
    by_cases hn : selectShape m.fingerCount s.currentShape = s.currentShape <;>
    simp [hn]

theorem updateScene_rotationSpeed (sets : ShapeType → List ℝ) (m : HandMetrics) (s : SceneState) :
    (updateScene sets m s).rotationSpeed = if m.isFist then 0.15 else 0.002 := by
  cases hf : m.isFist <;>
    simp only [updateScene, hf, Bool.false_eq_true, if_false, if_true] <;>
    by_cases hn : selectShape m.fingerCount s.currentShape = s.currentShape <;>
    simp [hn]

theorem updateScene_groupScale (sets : ShapeType → List ℝ) (m : HandMetrics) (s : SceneState) :
    (updateScene sets m s).groupScale =
      if m.isFist then 0.4 else 1.0 + (1 - max 0.05 (min 0.5 m.palmDepth) * 2) := by
  cases hf : m.isFist <;>
    simp only [updateScene, hf, Bool.false_eq_true, if_false, if_true] <;>
    by_cases hn : selectShape m.fingerCount s.currentShape = s.currentShape <;>
    simp [hn]

theorem updateScene_targetColor (sets : ShapeType → List ℝ) (m : HandMetrics) (s : SceneState) :
    (updateScene sets m s).targetColor =
      if m.isFist then Color.setHSL (fistHue m) 1.0 0.5 else s.targetColor := by
  cases hf : m.isFist <;>
    simp only [updateScene, hf, Bool.false_eq_true, if_false, if_true] <;>
    by_cases hn : selectShape m.fingerCount s.currentShape = s.currentShape <;>
    simp [hn]

/-- C1: for every metrics update with isFist false and fingerCount k in 1..5,
the resolved shape is the k-th entry of HEART, FLOWER, PORTAL, HEXAGRAM,
TREE; when it differs from the current shape the target positions buffer is
wholly replaced with the cached point set of that shape and the
current-shape identifier is updated, and when it coincides the buffer is
untouched; a fist update or a fingerCount outside 1..5 leaves the current
shape and the target positions buffer unchanged. -/
theorem C1_shape_selection (sets : ShapeType → List ℝ) (m : HandMetrics) (s : SceneState) :
    (m.isFist = false → 1 ≤ m.fingerCount → m.fingerCount ≤ 5 →
      selectShape m.fingerCount s.currentShape =
        [ShapeType.HEART, ShapeType.FLOWER, ShapeType.PORTAL, ShapeType.HEXAGRAM,
          ShapeType.TREE].getD (m.fingerCount - 1) s.currentShape ∧
      (updateScene sets m s).currentShape = selectShape m.fingerCount s.currentShape ∧
      (selectShape m.fingerCount s.currentShape ≠ s.currentShape →
        (updateScene sets m s).targetPositions = sets (selectShape m.fingerCount s.currentShape)) ∧
      (selectShape m.fingerCount s.currentShape = s.currentShape →
        (updateScene sets m s).targetPositions = s.targetPositions)) ∧
    ((m.isFist = true ∨ m.fingerCount = 0 ∨ 6 ≤ m.fingerCount) →
      (updateScene sets m s).currentShape = s.currentShape ∧
      (updateScene sets m s).targetPositions = s.targetPositions) := by
  constructor
  · intro hf h1 h5
    refine ⟨?_, ?_, ?_, ?_⟩
    · interval_cases h : m.fingerCount <;> simp [selectShape]
    · rw [updateScene_currentShape, hf]
      simp
    · intro hne
      rw [updateScene_targetPositions, hf]
      simp [hne]
    · intro heq
      rw [updateScene_targetPositions, hf]
      simp [heq]
  · intro h
    rcases h with hf | h0 | h6
    · rw [updateScene_currentShape, updateScene_targetPositions, hf]
      simp
    · have hsel : selectShape m.fingerCount s.currentShape = s.currentShape := by
        simp [selectShape, h0]
      rw [updateScene_currentShape, updateScene_targetPositions, hsel]
      simp
    · have hsel : selectShape m.fingerCount s.currentShape = s.currentShape := by
        have h1 : m.fingerCount ≠ 1 := by omega
        have h2 : m.fingerCount ≠ 2 := by omega
        have h3 : m.fingerCount ≠ 3 := by omega
        have h4 : m.fingerCount ≠ 4 := by omega
        have h5 : m.fingerCount ≠ 5 := by omega
        simp [selectShape, h1, h2, h3, h4, h5]
      rw [updateScene_currentShape, updateScene_targetPositions, hsel]
      simp

/-- C1 witness: a non-fist update with three fingers on a HEART scene
switches the shape to PORTAL and replaces the target buffer with the cached
PORTAL point set. -/
theorem C1_shape_selection_witness :
    (updateScene (fun _ => []) ⟨3, false, ⟨0, 0, 0⟩, 0⟩ (initialState fun _ _ => 1 / 2)).currentShape
        = ShapeType.PORTAL ∧
    (updateScene (fun _ => []) ⟨3, false, ⟨0, 0, 0⟩, 0⟩ (initialState fun _ _ => 1 / 2)).targetPositions
        = ([] : List ℝ) := by
  have h := C1_shape_selection (fun _ => []) ⟨3, false, ⟨0, 0, 0⟩, 0⟩ (initialState fun _ _ => 1 / 2)
  have h1 := h.1 rfl (by decide) (by decide)
  have hsel : selectShape 3 (initialState fun _ _ => (1 : ℚ) / 2).currentShape = ShapeType.PORTAL := by
    simp [selectShape, initialState]
  refine ⟨?_, ?_⟩
  · rw [h1.2.1]
    exact hsel
  · rw [h1.2.2.1 (by rw [hsel]; simp [initialState])]

theorem generate_succ (n : ℕ) (fn : ℕ → Vec3) :
    generate (n + 1) fn = generate n fn ++ [(fn n).x, (fn n).y, (fn n).z] := by
  unfold generate
  rw [List.range_succ, List.flatMap_append]
  simp

theorem generate_length (n : ℕ) (fn : ℕ → Vec3) : (generate n fn).length = 3 * n := by
  induction n with
  | zero => rfl
  | succ m ih =>
    rw [generate_succ, List.length_append, ih]
    simp
    omega

theorem generate_getD (n : ℕ) (fn : ℕ → Vec3) (i k : ℕ) (hi : i < n) (hk : k < 3) :
    (generate n fn).getD (3 * i + k) 0 = [(fn i).x, (fn i).y, (fn i).z].getD k 0 := by
  induction n with
  | zero => omega
  | succ m ih =>
    rw [generate_succ]
    rcases Nat.lt_succ_iff_lt_or_eq.mp hi with hlt | heq
    · rw [List.getD_append _ _ _ _ (by rw [generate_length]; omega)]
      exact ih hlt
    · subst heq
      rw [List.getD_append_right _ _ _ _ (by rw [generate_length]; omega), generate_length]
      congr 1
      omega

theorem generate_getD_x (n : ℕ) (fn : ℕ → Vec3) (i : ℕ) (hi : i < n) :
    (generate n fn).getD (3 * i) 0 = (fn i).x := by
  have h := generate_getD n fn i 0 hi (by omega)
  simpa using h

theorem generate_getD_y (n : ℕ) (fn : ℕ → Vec3) (i : ℕ) (hi : i < n) :
    (generate n fn).getD (3 * i + 1) 0 = (fn i).y := by
  have h := generate_getD n fn i 1 hi (by omega)
  simpa using h

theorem generate_getD_z (n : ℕ) (fn : ℕ → Vec3) (i : ℕ) (hi : i < n) :
    (generate n fn).getD (3 * i + 2) 0 = (fn i).z := by
  have h := generate_getD n fn i 2 hi (by omega)
  simpa using h

theorem tickPositions_getD (n : ℕ) (pos target : List ℝ) (jit : ℕ → ℚ) (j : ℕ)
    (hj : j < 3 * n) :
    (tickPositions n pos target jit).getD j 0 =
      lerpStep POS_LERP_FACTOR (target.getD j 0) (pos.getD j 0) (jit j) := by
  unfold tickPositions
  rw [List.getD_eq_getElem?_getD, List.getElem?_map, List.getElem?_range hj]
  rfl

/-- C9: with a particle count of 0 the shape generator produces empty
buffers and one pass of the particle-movement loop performs no coordinate
update at all, returning the empty buffer — a no-op instead of a failure. -/
theorem C9_zero_particles :
    (∀ fn : ℕ → Vec3, generate 0 fn = []) ∧
    (∀ (rng : ShapeType → ℕ → ℚ) (sh : ShapeType), shapeSet 0 rng sh = []) ∧
    (∀ (pos target : List ℝ) (jit : ℕ → ℚ), tickPositions 0 pos target jit = []) := by
  refine ⟨fun fn => rfl, fun rng sh => ?_, fun pos target jit => rfl⟩
  cases sh <;> rfl

/-- C7: one animate tick closes 5 percent of the gap on every color
component, moves every particle coordinate 8 percent toward its target and
then adds an independent jitter in [−0.025, 0.025), closes 10 percent of the
gap between the rendered scale and the target scale, and advances the two
rotation angles by rotationSpeed and rotationSpeed·0.5 without smoothing,
monotonically whenever the speed is nonnegative. -/
theorem C7_tick_updates (s : SceneState) (jit : ℕ → ℚ)
    (hjit : ∀ j, 0 ≤ jit j ∧ jit j < 1) :
    ((tick s jit).currentColor.h =
        s.currentColor.h + (s.targetColor.h - s.currentColor.h) * 0.05 ∧
      (tick s jit).currentColor.s =
        s.currentColor.s + (s.targetColor.s - s.currentColor.s) * 0.05 ∧
      (tick s jit).currentColor.l =
        s.currentColor.l + (s.targetColor.l - s.currentColor.l) * 0.05) ∧
    (∀ j, j < 3 * PARTICLE_COUNT →
      ∃ e, -0.025 ≤ e ∧ e < 0.025 ∧
        (tick s jit).positions.getD j 0 =
          s.positions.getD j 0 +
            (s.targetPositions.getD j 0 - s.positions.getD j 0) * 0.08 + e) ∧
    (tick s jit).scale = s.scale + (s.groupScale - s.scale) * 0.1 ∧
    (tick s jit).rotZ = s.rotZ + s.rotationSpeed ∧
    (tick s jit).rotY = s.rotY + s.rotationSpeed * 0.5 ∧
    (0 ≤ s.rotationSpeed → s.rotZ ≤ (tick s jit).rotZ ∧ s.rotY ≤ (tick s jit).rotY) ∧
    (tick s jit).targetPositions = s.targetPositions ∧
    (tick s jit).currentShape = s.currentShape ∧
    (tick s jit).rotationSpeed = s.rotationSpeed ∧
    (tick s jit).groupScale = s.groupScale ∧
    (tick s jit).targetColor = s.targetColor := by
  refine ⟨⟨?_, ?_, ?_⟩, ?_, rfl, rfl, rfl, fun hr => ?_, by simp only [tick], by simp only [tick],
    by simp only [tick], by simp only [tick], by simp only [tick]⟩
  · show s.currentColor.h + (s.targetColor.h - s.currentColor.h) * COLOR_LERP_FACTOR = _
    rw [COLOR_LERP_FACTOR]
  · show s.currentColor.s + (s.targetColor.s - s.currentColor.s) * COLOR_LERP_FACTOR = _
    rw [COLOR_LERP_FACTOR]
  · show s.currentColor.l + (s.targetColor.l - s.currentColor.l) * COLOR_LERP_FACTOR = _
    rw [COLOR_LERP_FACTOR]
  · intro j hj
    obtain ⟨h0, h1⟩ := hjit j
    have h0r : (0 : ℝ) ≤ (jit j : ℝ) := by exact_mod_cast h0
    have h1r : ((jit j : ℝ)) < 1 := by exact_mod_cast h1
    refine ⟨((jit j : ℝ) - 0.5) * 0.05, by nlinarith, by nlinarith, ?_⟩
    simp only [tick]
    rw [tickPositions_getD _ _ _ _ _ hj, lerpStep, POS_LERP_FACTOR]
  · constructor
    · show s.rotZ ≤ s.rotZ + s.rotationSpeed
      linarith
    · show s.rotY ≤ s.rotY + s.rotationSpeed * 0.5
      linarith

/-- C7 witness: on the startup state with a constant jitter stream of 1/2,
the tick advances the z rotation angle by exactly the rotation speed. -/
theorem C7_tick_updates_witness :
    (tick (initialState fun _ _ => 1 / 2) (fun _ => 1 / 2)).rotZ =
      (initialState fun _ _ => 1 / 2).rotZ + (initialState fun _ _ => 1 / 2).rotationSpeed :=
  (C7_tick_updates (initialState fun _ _ => 1 / 2) (fun _ => 1 / 2)
    (fun j => by norm_num)).2.2.2.1

theorem rat_unit_bounds (q : ℚ) (h : 0 ≤ q ∧ q < 1) :
    (0 : ℝ) ≤ (q : ℝ) ∧ ((q : ℝ)) < 1 :=
  ⟨by exact_mod_cast h.1, by exact_mod_cast h.2⟩

/-- C6: for every valid stream of random draws, each generated shape buffer
holds exactly PARTICLE_COUNT particles (3·N coordinates), and every particle
obeys its documented formula and bounds: HEART with radius jitter in
[0.5, 0.6) and z in [−2, 2), FLOWER the 12-turn rose with z in [−1.5, 1.5),
PORTAL the three rings with their radius ranges, ±0.25 noise and flat z,
HEXAGRAM the 6-lobed star with z in [−1, 1), and TREE the deterministic
spiral cone.  The quantification over all valid streams is exactly the
regeneration claim: any regeneration preserves the point count and these
bounds. -/
theorem C6_shape_pointsets (rng : ShapeType → ℕ → ℚ)
    (hrng : ∀ sh n, 0 ≤ rng sh n ∧ rng sh n < 1) :
    (∀ sh, (shapePoints rng sh).length = 3 * PARTICLE_COUNT) ∧
    (∀ i, i < PARTICLE_COUNT →
      ∃ r z, (0.5 ≤ r ∧ r < 0.6) ∧ (-2 ≤ z ∧ z < 2) ∧
        (shapePoints rng .HEART).getD (3 * i) 0 =
          16 * Real.sin (((i : ℝ) / (PARTICLE_COUNT : ℝ)) * Real.pi * 2) ^ 3 * r ∧
        (shapePoints rng .HEART).getD (3 * i + 1) 0 =
          (13 * Real.cos (((i : ℝ) / (PARTICLE_COUNT : ℝ)) * Real.pi * 2) -
            5 * Real.cos (2 * (((i : ℝ) / (PARTICLE_COUNT : ℝ)) * Real.pi * 2)) -
            2 * Real.cos (3 * (((i : ℝ) / (PARTICLE_COUNT : ℝ)) * Real.pi * 2)) -
            Real.cos (4 * (((i : ℝ) / (PARTICLE_COUNT : ℝ)) * Real.pi * 2))) * r ∧
        (shapePoints rng .HEART).getD (3 * i + 2) 0 = z) ∧
    (∀ i, i < PARTICLE_COUNT →
      ∃ z, (-1.5 ≤ z ∧ z < 1.5) ∧
        (shapePoints rng .FLOWER).getD (3 * i) 0 =
          (8 * Real.cos (5 * (((i : ℝ) / (PARTICLE_COUNT : ℝ)) * Real.pi * 2 * 12)) + 3) *
            Real.cos (((i : ℝ) / (PARTICLE_COUNT : ℝ)) * Real.pi * 2 * 12) ∧
        (shapePoints rng .FLOWER).getD (3 * i + 1) 0 =
          (8 * Real.cos (5 * (((i : ℝ) / (PARTICLE_COUNT : ℝ)) * Real.pi * 2 * 12)) + 3) *
            Real.sin (((i : ℝ) / (PARTICLE_COUNT : ℝ)) * Real.pi * 2 * 12) ∧
        (shapePoints rng .FLOWER).getD (3 * i + 2) 0 = z) ∧
    (∀ i, i < PARTICLE_COUNT →
      ∃ rad noise angle z,
        (i % 3 = 0 → 10 ≤ rad ∧ rad < 11.5) ∧
        (i % 3 = 1 → 8 ≤ rad ∧ rad < 9) ∧
        (i % 3 ≠ 0 → i % 3 ≠ 1 → 0 ≤ rad ∧ rad < 9) ∧
        (-0.25 ≤ noise ∧ noise < 0.25) ∧ (-0.25 ≤ z ∧ z < 0.25) ∧
        (shapePoints rng .PORTAL).getD (3 * i) 0 = (rad + noise) * Real.cos angle ∧
        (shapePoints rng .PORTAL).getD (3 * i + 1) 0 = (rad + noise) * Real.sin angle ∧
        (shapePoints rng .PORTAL).getD (3 * i + 2) 0 = z) ∧
    (∀ i, i < PARTICLE_COUNT →
      ∃ z, (-1 ≤ z ∧ z < 1) ∧
        (shapePoints rng .HEXAGRAM).getD (3 * i) 0 =
          9 * (1.2 + 0.3 * Real.sin (6 * (((i : ℝ) / (PARTICLE_COUNT : ℝ)) * Real.pi * 2))) *
            Real.cos (((i : ℝ) / (PARTICLE_COUNT : ℝ)) * Real.pi * 2) ∧
        (shapePoints rng .HEXAGRAM).getD (3 * i + 1) 0 =
          9 * (1.2 + 0.3 * Real.sin (6 * (((i : ℝ) / (PARTICLE_COUNT : ℝ)) * Real.pi * 2))) *
            Real.sin (((i : ℝ) / (PARTICLE_COUNT : ℝ)) * Real.pi * 2) ∧
        (shapePoints rng .HEXAGRAM).getD (3 * i + 2) 0 = z) ∧
    (∀ i, i < PARTICLE_COUNT →
      (shapePoints rng .TREE).getD (3 * i) 0 =
        ((i : ℝ) / (PARTICLE_COUNT : ℝ)) * 8 *
          Real.cos (((i : ℝ) / (PARTICLE_COUNT : ℝ)) * Real.pi * 20) ∧
      (shapePoints rng .TREE).getD (3 * i + 1) 0 =
        8 - ((i : ℝ) / (PARTICLE_COUNT : ℝ)) * 18 ∧
      (shapePoints rng .TREE).getD (3 * i + 2) 0 =
        ((i : ℝ) / (PARTICLE_COUNT : ℝ)) * 8 *
          Real.sin (((i : ℝ) / (PARTICLE_COUNT : ℝ)) * Real.pi * 20)) := by
  refine ⟨?_, ?_, ?_, ?_, ?_, ?_⟩
  · intro sh
    cases sh <;> simp [shapePoints, shapeSet, generate_length]
  · intro i hi
    obtain ⟨h0, h1⟩ := rat_unit_bounds _ (hrng .HEART (2 * i))
    obtain ⟨g0, g1⟩ := rat_unit_bounds _ (hrng .HEART (2 * i + 1))
    refine ⟨0.5 + (rng .HEART (2 * i) : ℝ) * 0.1, ((rng .HEART (2 * i + 1) : ℝ) - 0.5) * 4,
      ⟨by nlinarith, by nlinarith⟩, ⟨by nlinarith, by nlinarith⟩, ?_, ?_, ?_⟩
    · simp only [shapePoints, shapeSet]
      rw [generate_getD_x _ _ _ hi]
      simp [heartPoint]
    · simp only [shapePoints, shapeSet]
      rw [generate_getD_y _ _ _ hi]
      simp [heartPoint]
    · simp only [shapePoints, shapeSet]
      rw [generate_getD_z _ _ _ hi]
      simp [heartPoint]
  · intro i hi
    obtain ⟨h0, h1⟩ := rat_unit_bounds _ (hrng .FLOWER i)
    refine ⟨((rng .FLOWER i : ℝ) - 0.5) * 3, ⟨by nlinarith, by nlinarith⟩, ?_, ?_, ?_⟩
    · simp only [shapePoints, shapeSet]
      rw [generate_getD_x _ _ _ hi]
      simp [flowerPoint]
    · simp only [shapePoints, shapeSet]
      rw [generate_getD_y _ _ _ hi]
      simp [flowerPoint]
    · simp only [shapePoints, shapeSet]
      rw [generate_getD_z _ _ _ hi]
      simp [flowerPoint]
  · intro i hi
    obtain ⟨h0, h1⟩ := rat_unit_bounds _ (hrng .PORTAL (4 * i + 1))
    obtain ⟨n0, n1⟩ := rat_unit_bounds _ (hrng .PORTAL (4 * i + 2))
    obtain ⟨z0, z1⟩ := rat_unit_bounds _ (hrng .PORTAL (4 * i + 3))
    refine ⟨(if i % 3 = 0 then 10 + (rng .PORTAL (4 * i + 1) : ℝ) * 1.5
        else if i % 3 = 1 then 8 + (rng .PORTAL (4 * i + 1) : ℝ) * 1.0
        else (rng .PORTAL (4 * i + 1) : ℝ) * 9),
      ((rng .PORTAL (4 * i + 2) : ℝ) - 0.5) * 0.5,
      (rng .PORTAL (4 * i) : ℝ) * Real.pi * 2,
      ((rng .PORTAL (4 * i + 3) : ℝ) - 0.5) * 0.5,
      ?_, ?_, ?_, ⟨by nlinarith, by nlinarith⟩, ⟨by nlinarith, by nlinarith⟩, ?_, ?_, ?_⟩
    · intro hm
      rw [if_pos hm]
      constructor <;> nlinarith
    · intro hm
      have hm0 : i % 3 ≠ 0 := by omega
      rw [if_neg hm0, if_pos hm]
      constructor <;> nlinarith
    · intro hm0 hm1
      rw [if_neg hm0, if_neg hm1]
      constructor <;> nlinarith
    · simp only [shapePoints, shapeSet]
      rw [generate_getD_x _ _ _ hi]
      simp only [portalPoint]
    · simp only [shapePoints, shapeSet]
      rw [generate_getD_y _ _ _ hi]
      simp only [portalPoint]
    · simp only [shapePoints, shapeSet]
      rw [generate_getD_z _ _ _ hi]
      simp only [portalPoint]
  · intro i hi
    obtain ⟨h0, h1⟩ := rat_unit_bounds _ (hrng .HEXAGRAM i)
    refine ⟨((rng .HEXAGRAM i : ℝ) - 0.5) * 2, ⟨by nlinarith, by nlinarith⟩, ?_, ?_, ?_⟩
    · simp only [shapePoints, shapeSet]
      rw [generate_getD_x _ _ _ hi]
      simp [hexagramPoint]
    · simp only [shapePoints, shapeSet]
      rw [generate_getD_y _ _ _ hi]
      simp [hexagramPoint]
    · simp only [shapePoints, shapeSet]
      rw [generate_getD_z _ _ _ hi]
      simp [hexagramPoint]
  · intro i hi
    refine ⟨?_, ?_, ?_⟩
    · simp only [shapePoints, shapeSet]
      rw [generate_getD_x _ _ _ hi]
      simp [treePoint]
    · simp only [shapePoints, shapeSet]
      rw [generate_getD_y _ _ _ hi]
      simp [treePoint]
    · simp only [shapePoints, shapeSet]
      rw [generate_getD_z _ _ _ hi]
      simp [treePoint]

/-- C6 witness: with the constant draw stream 1/2, the HEART buffer holds
exactly 3·PARTICLE_COUNT coordinates. -/
theorem C6_shape_pointsets_witness :
    (shapePoints (fun _ _ => 1 / 2) ShapeType.HEART).length = 3 * PARTICLE_COUNT :=
  (C6_shape_pointsets (fun _ _ => 1 / 2) (fun sh n => by norm_num)).1 ShapeType.HEART

theorem iterPos_gap_step (a t x0 : ℝ) (d : ℕ → ℚ) (ha1 : a ≤ 1)
    (hd : ∀ n, 0 ≤ d n ∧ d n < 1) (n : ℕ) :
    |iterPos a t d x0 (n + 1) - t| ≤ (1 - a) * |iterPos a t d x0 n - t| + 0.025 := by
  have hstep : iterPos a t d x0 (n + 1) - t =
      (1 - a) * (iterPos a t d x0 n - t) + ((d n : ℝ) - 0.5) * 0.05 := by
    simp only [iterPos, lerpStep]
    ring
  have hj : |((d n : ℝ) - 0.5) * 0.05| ≤ 0.025 := by
    obtain ⟨h0, h1⟩ := hd n
    have h0r : (0 : ℝ) ≤ (d n : ℝ) := by exact_mod_cast h0
    have h1r : ((d n : ℝ)) < 1 := by exact_mod_cast h1
    rw [abs_le]
    constructor <;> nlinarith
  calc |iterPos a t d x0 (n + 1) - t|
      = |(1 - a) * (iterPos a t d x0 n - t) + ((d n : ℝ) - 0.5) * 0.05| := by rw [hstep]
    _ ≤ |(1 - a) * (iterPos a t d x0 n - t)| + |((d n : ℝ) - 0.5) * 0.05| := abs_add _ _
    _ = (1 - a) * |iterPos a t d x0 n - t| + |((d n : ℝ) - 0.5) * 0.05| := by
        rw [abs_mul, abs_of_nonneg (by linarith : (0 : ℝ) ≤ 1 - a)]
    _ ≤ (1 - a) * |iterPos a t d x0 n - t| + 0.025 := by linarith

theorem iterPos_gap_decay (a t x0 : ℝ) (d : ℕ → ℚ) (ha0 : 0 < a) (ha1 : a ≤ 1)
    (hd : ∀ n, 0 ≤ d n ∧ d n < 1) (n : ℕ) :
    |iterPos a t d x0 n - t| ≤ (1 - a) ^ n * |x0 - t| + 0.025 / a := by
  have haB : a * (0.025 / a) = 0.025 := by
    field_simp
  induction n with
  | zero =>
    have hB : 0 ≤ 0.025 / a := by positivity
    simp only [iterPos, pow_zero, one_mul]
    linarith
  | succ m ih =>
    have hstep := iterPos_gap_step a t x0 d ha1 hd m
    have hpow : (0 : ℝ) ≤ (1 - a) ^ m := pow_nonneg (by linarith) m
    have hmul : (1 - a) * |iterPos a t d x0 m - t| ≤
        (1 - a) * ((1 - a) ^ m * |x0 - t| + 0.025 / a) :=
      mul_le_mul_of_nonneg_left ih (by linarith)
    have hring : (1 - a) * ((1 - a) ^ m * |x0 - t| + 0.025 / a) =
        (1 - a) ^ (m + 1) * |x0 - t| + (0.025 / a - a * (0.025 / a)) := by
      ring
    rw [haB] at hring
    linarith [hstep, hmul, hring.le, hring.ge]

/-- C8: iterating the per-tick coordinate update with a constant target and
smoothing factor a in (0, 1] contracts the gap by the factor (1 − a) up to
the jitter bound 0.025 each tick; above the steady-state band 0.025/a the
gap strictly decreases, the band itself is invariant, and for every ε above
the band the gap eventually stays within ε. -/
theorem C8_convergence (a t x0 : ℝ) (d : ℕ → ℚ) (ha0 : 0 < a) (ha1 : a ≤ 1)
    (hd : ∀ n, 0 ≤ d n ∧ d n < 1) :
    (∀ n, |iterPos a t d x0 (n + 1) - t| ≤ (1 - a) * |iterPos a t d x0 n - t| + 0.025) ∧
    (∀ n, 0.025 / a < |iterPos a t d x0 n - t| →
      |iterPos a t d x0 (n + 1) - t| < |iterPos a t d x0 n - t|) ∧
    (∀ n, |iterPos a t d x0 n - t| ≤ 0.025 / a →
      |iterPos a t d x0 (n + 1) - t| ≤ 0.025 / a) ∧
    (∀ e, 0.025 / a < e → ∃ M, ∀ n, M ≤ n → |iterPos a t d x0 n - t| ≤ e) := by
  have haB : a * (0.025 / a) = 0.025 := by field_simp
  refine ⟨iterPos_gap_step a t x0 d ha1 hd, fun n hn => ?_, fun n hn => ?_, fun e he => ?_⟩
  · have hstep := iterPos_gap_step a t x0 d ha1 hd n
    have hag : 0.025 < a * |iterPos a t d x0 n - t| := by
      calc (0.025 : ℝ) = a * (0.025 / a) := haB.symm
        _ < a * |iterPos a t d x0 n - t| := by
            exact mul_lt_mul_of_pos_left hn ha0
    nlinarith
  · have hstep := iterPos_gap_step a t x0 d ha1 hd n
    have hmul : (1 - a) * |iterPos a t d x0 n - t| ≤ (1 - a) * (0.025 / a) :=
      mul_le_mul_of_nonneg_left hn (by linarith)
    nlinarith
  · set B : ℝ := 0.025 / a with hB
    set g0 : ℝ := |x0 - t| with hg0
    have hg0n : 0 ≤ g0 := abs_nonneg _
    have heB : 0 < e - B := by linarith
    obtain ⟨M, hM⟩ := exists_pow_lt_of_lt_one
      (show (0 : ℝ) < (e - B) / (g0 + 1) by positivity)
      (show 1 - a < 1 by linarith)
    refine ⟨M, fun n hn => ?_⟩
    have hdec := iterPos_gap_decay a t x0 d ha0 ha1 hd n
    have hpowle : (1 - a) ^ n ≤ (1 - a) ^ M :=
      pow_le_pow_of_le_one (by linarith) (by linarith) hn
    have hpow0 : (0 : ℝ) ≤ (1 - a) ^ n := pow_nonneg (by linarith) n
    have h1 : (1 - a) ^ n * g0 ≤ (e - B) / (g0 + 1) * g0 := by
      apply mul_le_mul_of_nonneg_right _ hg0n
      exact le_of_lt (lt_of_le_of_lt hpowle (hM))
    have h2 : (e - B) / (g0 + 1) * g0 ≤ e - B := by
      rw [div_mul_eq_mul_div, mul_comm, ← div_mul_eq_mul_div]
      apply mul_le_of_le_one_left (le_of_lt heB)
      rw [div_le_one (by linarith)]
      linarith
    linarith

/-- C8 witness: with smoothing factor 1, target 0, start 0 and a constant
jitter stream of 1/2, the gap eventually stays within 1. -/
theorem C8_convergence_witness :
    ∃ M, ∀ n, M ≤ n → |iterPos 1 0 (fun _ => 1 / 2) 0 n - 0| ≤ 1 :=
  (C8_convergence 1 0 0 (fun _ => 1 / 2) one_pos le_rfl
    (fun n => by norm_num)).2.2.2 1 (by norm_num)

/-- C2: analyzeHand reports a fist exactly when the finger count is 0, or the
finger count is 1 and none of the four non-thumb fingers is classified as
extended; in particular a hand whose only extended digit is the thumb is a
fist with finger count 1, and a hand with no extended digit is a fist with
finger count 0. -/
theorem C2_fist_detection (lm : Landmarks) :
    ((analyzeHand lm).isFist = true ↔
      ((analyzeHand lm).fingerCount = 0 ∨
        ((analyzeHand lm).fingerCount = 1 ∧ isIndexExtended lm = false ∧
          isMiddleExtended lm = false ∧ isRingExtended lm = false ∧
          isPinkyExtended lm = false))) ∧
    (isThumbExtended lm = true → isIndexExtended lm = false → isMiddleExtended lm = false →
      isRingExtended lm = false → isPinkyExtended lm = false →
      (analyzeHand lm).isFist = true ∧ (analyzeHand lm).fingerCount = 1) ∧
    (isThumbExtended lm = false → isIndexExtended lm = false → isMiddleExtended lm = false →
      isRingExtended lm = false → isPinkyExtended lm = false →
      (analyzeHand lm).isFist = true ∧ (analyzeHand lm).fingerCount = 0) := by
  cases hT : isThumbExtended lm <;> cases hI : isIndexExtended lm <;>
    cases hM : isMiddleExtended lm <;> cases hR : isRingExtended lm <;>
    cases hP : isPinkyExtended lm <;>
    simp [analyzeHand, hT, hI, hM, hR, hP]

/-- C2 witness: on the concrete thumb-only landmark set, analyzeHand reports
a fist with finger count 1. -/
theorem C2_fist_detection_witness :
    (analyzeHand lmFistThumb).isFist = true ∧ (analyzeHand lmFistThumb).fingerCount = 1 :=
  (C2_fist_detection lmFistThumb).2.1
    (by norm_num [isThumbExtended, lmFistThumb, dist2, THUMB_TIP, THUMB_IP, PINKY_MCP])
    (by norm_num [isIndexExtended, lmFistThumb, dist2, WRIST, INDEX_FINGER_PIP, INDEX_FINGER_TIP])
    (by norm_num [isMiddleExtended, lmFistThumb, dist2, WRIST, MIDDLE_FINGER_PIP, MIDDLE_FINGER_TIP])
    (by norm_num [isRingExtended, lmFistThumb, dist2, WRIST, RING_FINGER_PIP, RING_FINGER_TIP])
    (by norm_num [isPinkyExtended, lmFistThumb, dist2, WRIST, PINKY_PIP, PINKY_TIP])

/-- C3: each non-thumb finger is classified extended exactly when its tip is
farther from the wrist than its PIP joint, the thumb exactly when its tip is
farther from the pinky MCP than its IP joint, and fingerCount is the number
of extended digits, at most 5. -/
theorem C3_finger_extension (lm : Landmarks) :
    (isIndexExtended lm = true ↔
      distance (lm INDEX_FINGER_PIP) (lm WRIST) < distance (lm INDEX_FINGER_TIP) (lm WRIST)) ∧
    (isMiddleExtended lm = true ↔
      distance (lm MIDDLE_FINGER_PIP) (lm WRIST) < distance (lm MIDDLE_FINGER_TIP) (lm WRIST)) ∧
    (isRingExtended lm = true ↔
      distance (lm RING_FINGER_PIP) (lm WRIST) < distance (lm RING_FINGER_TIP) (lm WRIST)) ∧
    (isPinkyExtended lm = true ↔
      distance (lm PINKY_PIP) (lm WRIST) < distance (lm PINKY_TIP) (lm WRIST)) ∧
    (isThumbExtended lm = true ↔
      distance (lm THUMB_IP) (lm PINKY_MCP) < distance (lm THUMB_TIP) (lm PINKY_MCP)) ∧
    (analyzeHand lm).fingerCount =
      ([isThumbExtended lm, isIndexExtended lm, isMiddleExtended lm, isRingExtended lm,
        isPinkyExtended lm].count true) ∧
    (analyzeHand lm).fingerCount ≤ 5 := by
  refine ⟨?_, ?_, ?_, ?_, ?_, ?_, ?_⟩
  · rw [distance_lt_distance_iff, isIndexExtended, decide_eq_true_eq]
  · rw [distance_lt_distance_iff, isMiddleExtended, decide_eq_true_eq]
  · rw [distance_lt_distance_iff, isRingExtended, decide_eq_true_eq]
  · rw [distance_lt_distance_iff, isPinkyExtended, decide_eq_true_eq]
  · rw [distance_lt_distance_iff, isThumbExtended, decide_eq_true_eq]
  · cases hT : isThumbExtended lm <;> cases hI : isIndexExtended lm <;>
      cases hM : isMiddleExtended lm <;> cases hR : isRingExtended lm <;>
      cases hP : isPinkyExtended lm <;>
      simp [analyzeHand, hT, hI, hM, hR, hP, List.count_cons]
  · cases hT : isThumbExtended lm <;> cases hI : isIndexExtended lm <;>
      cases hM : isMiddleExtended lm <;> cases hR : isRingExtended lm <;>
      cases hP : isPinkyExtended lm <;>
      simp [analyzeHand, hT, hI, hM, hR, hP]

/-- C3 witness: on the concrete thumb-only landmark set, the sqrt-based thumb
distances compare as classified, and the finger count is within 0..5. -/
theorem C3_finger_extension_witness :
    distance (lmFistThumb THUMB_IP) (lmFistThumb PINKY_MCP) <
      distance (lmFistThumb THUMB_TIP) (lmFistThumb PINKY_MCP) ∧
    (analyzeHand lmFistThumb).fingerCount ≤ 5 :=
  ⟨(C3_finger_extension lmFistThumb).2.2.2.2.1.mp
      (by norm_num [isThumbExtended, lmFistThumb, dist2, THUMB_TIP, THUMB_IP, PINKY_MCP]),
    (C3_finger_extension lmFistThumb).2.2.2.2.2.2⟩

/-- C4: a fist update sets the target scale to 0.4 and the rotation speed to
0.15; an open-hand update sets the target scale to
1.0 + (1 − 2·clamp(palmDepth, 0.05, 0.5)) and the rotation speed to 0.002;
palmDepth at or below 0.05 yields target scale 1.9 and palmDepth at or above
0.5 yields target scale 1.0. -/
theorem C4_scale_rotation (sets : ShapeType → List ℝ) (m : HandMetrics) (s : SceneState) :
    (m.isFist = true →
      (updateScene sets m s).groupScale = 0.4 ∧ (updateScene sets m s).rotationSpeed = 0.15) ∧
    (m.isFist = false →
      (updateScene sets m s).groupScale = 1.0 + (1 - max 0.05 (min 0.5 m.palmDepth) * 2) ∧
      (updateScene sets m s).rotationSpeed = 0.002) ∧
    (m.isFist = false → m.palmDepth ≤ 0.05 → (updateScene sets m s).groupScale = 1.9) ∧
    (m.isFist = false → 0.5 ≤ m.palmDepth → (updateScene sets m s).groupScale = 1.0) := by
  rw [updateScene_groupScale, updateScene_rotationSpeed]
  refine ⟨fun hf => by simp [hf], fun hf => by simp [hf], fun hf hd => ?_, fun hf hd => ?_⟩
  · have hmin : min 0.5 m.palmDepth = m.palmDepth :=
      min_eq_right (le_trans hd (by norm_num))
    have hmax : max 0.05 (min 0.5 m.palmDepth) = (0.05 : ℝ) := by
      rw [hmin]; exact max_eq_left hd
    rw [hf]
    simp only [Bool.false_eq_true, if_false, hmax]
    norm_num
  · have hmin : min 0.5 m.palmDepth = (0.5 : ℝ) := min_eq_left hd
    have hmax : max 0.05 (min 0.5 m.palmDepth) = (0.5 : ℝ) := by
      rw [hmin]; exact max_eq_right (by norm_num)
    rw [hf]
    simp only [Bool.false_eq_true, if_false, hmax]
    norm_num

/-- C4 witness: an open-hand update with palm depth exactly 0.05 yields
target scale 1.9 and rotation speed 0.002. -/
theorem C4_scale_rotation_witness :
    (updateScene (fun _ => []) ⟨5, false, ⟨0, 0, 0⟩, 0.05⟩ (initialState fun _ _ => 1 / 2)).groupScale
        = 1.9 ∧
    (updateScene (fun _ => []) ⟨5, false, ⟨0, 0, 0⟩, 0.05⟩ (initialState fun _ _ => 1 / 2)).rotationSpeed
        = 0.002 := by
  have h := C4_scale_rotation (fun _ => []) ⟨5, false, ⟨0, 0, 0⟩, 0.05⟩ (initialState fun _ _ => 1 / 2)
  exact ⟨h.2.2.1 rfl le_rfl, (h.2.1 rfl).2⟩

/-- C5: a fist update sets the target color to HSL with hue
clamp(1 − position.x, 0, 1), saturation 1.0 and lightness 0.5; position.x 0
gives hue 1, position.x 1 gives hue 0, position.x 1/2 gives hue 1/2. -/
theorem C5_fist_hue (sets : ShapeType → List ℝ) (m : HandMetrics) (s : SceneState) :
    (m.isFist = true →
      (updateScene sets m s).targetColor = Color.setHSL (fistHue m) 1.0 0.5) ∧
    fistHue m = max 0 (min 1 (1 - (m.position.x : ℝ))) ∧
    (m.position.x = 0 → fistHue m = 1) ∧
    (m.position.x = 1 → fistHue m = 0) ∧
    (m.position.x = 1 / 2 → fistHue m = 1 / 2) := by
  refine ⟨fun hf => by rw [updateScene_targetColor, hf]; simp, rfl, fun h0 => ?_, fun h1 => ?_,
    fun hh => ?_⟩
  · simp [fistHue, h0]
  · simp [fistHue, h1]
  · rw [fistHue, hh]
    norm_num

/-- C5 witness: a fist update with the palm centred at x = 1/2 sets the
target color to hue 1/2, saturation 1, lightness 1/2. -/
theorem C5_fist_hue_witness :
    (updateScene (fun _ => []) ⟨0, true, ⟨1 / 2, 0, 0⟩, 0⟩ (initialState fun _ _ => 1 / 2)).targetColor
      = Color.setHSL (1 / 2) 1.0 0.5 := by
  have h := C5_fist_hue (fun _ => []) ⟨0, true, ⟨1 / 2, 0, 0⟩, 0⟩ (initialState fun _ _ => 1 / 2)
  rw [h.1 rfl, h.2.2.2.2 (by norm_num)]

/-- C10 counterexample: the claim that no metrics update can produce target
scale 1.0 is false: an open-hand update with palm depth 0.5 produces group
scale exactly 1.0, the same value the scene starts with. -/
theorem C10_counterexample :
    ¬ (∀ (sets : ShapeType → List ℝ) (m : HandMetrics) (s : SceneState),
        (updateScene sets m s).groupScale ≠ (1.0 : ℝ)) := by
  intro h
  apply h (fun _ => []) mOpenHalf (initialState fun _ _ => 1 / 2)
  rw [updateScene_groupScale]
  have : (mOpenHalf.isFist = false) := rfl
  simp only [mOpenHalf, Bool.false_eq_true, if_false]
  norm_num

/-- C10 (amended): before the first metrics update the rotation speed is
0.001 — a value no metrics update can produce — and the target scale is 1.0
(a value an open-hand update with palm depth at least 0.5 also produces);
after every metrics update the rotation speed is exactly 0.15 or 0.002 and
the target scale is either 0.4 or lies in [1.0, 1.9]. -/
theorem C10_physics_invariant (rng : ShapeType → ℕ → ℚ) (sets : ShapeType → List ℝ)
    (m : HandMetrics) (s : SceneState) :
    (initialState rng).rotationSpeed = 0.001 ∧
    (initialState rng).groupScale = 1.0 ∧
    ((updateScene sets m s).rotationSpeed = 0.15 ∨
      (updateScene sets m s).rotationSpeed = 0.002) ∧
    (updateScene sets m s).rotationSpeed ≠ (initialState rng).rotationSpeed ∧
    ((updateScene sets m s).groupScale = 0.4 ∨
      (1.0 ≤ (updateScene sets m s).groupScale ∧ (updateScene sets m s).groupScale ≤ 1.9)) := by
  rw [updateScene_groupScale, updateScene_rotationSpeed]
  refine ⟨rfl, rfl, ?_, ?_, ?_⟩
  · cases m.isFist <;> simp
  · cases m.isFist <;> simp [initialState] <;> norm_num
  · cases m.isFist
    · right
      simp only [Bool.false_eq_true, if_false]
      have hlo : (0.05 : ℝ) ≤ max 0.05 (min 0.5 m.palmDepth) := le_max_left _ _
      have hhi : max 0.05 (min 0.5 m.palmDepth) ≤ (0.5 : ℝ) :=
        max_le (by norm_num) (min_le_left _ _)
      constructor <;> nlinarith
    · left
      simp

/-- C10 witness: a fist update on the startup state yields rotation speed
0.15, and the startup rotation speed is 0.001. -/
theorem C10_physics_invariant_witness :
    (updateScene (fun _ => []) ⟨0, true, ⟨0, 0, 0⟩, 0⟩ (initialState fun _ _ => 1 / 2)).rotationSpeed
        = 0.15 ∧
    (initialState fun _ _ => (1 : ℚ) / 2).rotationSpeed = 0.001 := by
  have h := C10_physics_invariant (fun _ _ => 1 / 2) (fun _ => [])
    ⟨0, true, ⟨0, 0, 0⟩, 0⟩ (initialState fun _ _ => 1 / 2)
  refine ⟨?_, h.1⟩
  rcases h.2.2.1 with h15 | h02
  · exact h15
  · rw [updateScene_rotationSpeed] at h02
    simp at h02
    norm_num at h02

end GestureParticles
